import Mathlib

/-!
# Presence-and-relay engine of the chat server (`src/server.js`)

A shallow embedding of the socket handlers installed by `io.on("connection", ...)`:
`register-user`, `join`, `leave`, `send-message` and `disconnect`.

Modelling conventions.

* `users` (line 36, `{ username: socket.id }`) is a plain object literal, so its
  prototype is `Object.prototype`.  Its own properties are kept in insertion
  order (`Registry`); only line 47 writes to it, so every own value is a socket
  id.  `users[k]` is `Registry.get`: the own property if there is one, else the
  member inherited under that name, else `undefined`.  `users[k] = v` is
  `Registry.set`: it writes an own property, except that for `"__proto__"` the
  inherited setter runs, which ignores a string.  `delete users[k]` is
  `Registry.delete`: it removes the own property only.
* `socket.id` is a fresh, non-empty identifier chosen by the transport for each
  connection.  Only its identity matters, so it is a natural number here.  Every
  value a read of `users` can yield (a socket id or an inherited member) is
  truthy, so `if (receiverSocketId)` is taken exactly when the read is not
  `undefined`.
* An `emit` is addressed to a room.  `socket.emit` addresses the room of the
  socket's own id; `io.to(v).emit` addresses the room `v`, which is the room of a
  connection only when `v` is a socket id.
* `socket.username` is a property of each connection, `undefined` until the first
  `register-user`; it is the field `socketUsername` of the server state.
* `new Date()` and the outcome of the database calls are inputs of the handler
  (`Env`).  The `send-message` handler is asynchronous; it is modelled at the
  point where its awaits have settled, so the table it consults is the table at
  that moment.
* What a handler does to the outside world is an ordered list of `Effect`s:
  the `insertOne` on the `messages` collection and every `emit`.  Console output
  is not modelled.
-/

namespace ChatServer

/-- Identifier of a connection (`socket.id`). -/
abbrev SocketId := Nat

/-- A clock reading (`new Date()`); `toISOString()` renders it injectively. -/
abbrev Instant := Nat

/-- Names of the members every plain object inherits from `Object.prototype`. -/
def objectPrototypeNames : List String :=
  ["constructor", "__defineGetter__", "__defineSetter__", "hasOwnProperty",
   "__lookupGetter__", "__lookupSetter__", "isPrototypeOf", "propertyIsEnumerable",
   "toString", "valueOf", "__proto__", "toLocaleString"]

/-- What a read `users[key]` can yield besides `undefined`. -/
inductive Value where
  /-- an own property: the socket id stored by line 47 -/
  | socketId (id : SocketId)
  /-- the member of `Object.prototype` of that name (for `"__proto__"`, the
  prototype object itself) -/
  | inherited (name : String)
  deriving DecidableEq, Repr

/-- The object `users`: its own properties in insertion order. -/
abbrev Registry := List (String × SocketId)

namespace Registry

/-- Own property of `users` under `key`, if any. -/
def getOwn : Registry → String → Option SocketId
  | [], _ => none
  | (k, v) :: rest, key => if k = key then some v else getOwn rest key

/-- What the prototype chain yields for `key` when there is no own property. -/
def inheritedValue (key : String) : Option Value :=
  if key ∈ objectPrototypeNames then some (.inherited key) else none

/-- Property read `users[key]`; `none` stands for `undefined`. -/
def get (users : Registry) (key : String) : Option Value :=
  match users.getOwn key with
  | some id => some (.socketId id)
  | none => inheritedValue key

/-- Write of an own property: overwrite in place, or append a new key. -/
def setOwn : Registry → String → SocketId → Registry
  | [], key, id => [(key, id)]
  | (k, v) :: rest, key, id =>
    if k = key then (k, id) :: rest else (k, v) :: setOwn rest key id

/-- Property write `users[key] = id` with `id` a string.  Without an own property
`"__proto__"` the write reaches the inherited accessor, whose setter ignores a
value that is neither an object nor `null`; every other inherited member is a
writable data property, so the write creates or updates an own property. -/
def set (users : Registry) (key : String) (id : SocketId) : Registry :=
  if key = "__proto__" ∧ users.getOwn key = none then users else users.setOwn key id

/-- Property removal `delete users[key]`: the own property goes, inherited
members stay. -/
def delete (users : Registry) (key : String) : Registry :=
  users.filter (fun p => decide (p.1 ≠ key))

end Registry

/-- A document of the `messages` collection (lines 79-84). -/
structure Message where
  sender : String
  receiver : String
  text : String
  timestamp : Instant
  deriving DecidableEq, Repr

/-- Events the server pushes to a client, with their payloads. -/
inductive ServerEvent where
  /-- `"joined"`, `{ with, time }` -/
  | joined (withUser : String) (time : Instant)
  /-- `"user-joined"`, `{ username }` -/
  | userJoined (username : String)
  /-- `"user-left"`, `{ username }` -/
  | userLeft (username : String)
  /-- `"receive-message"`, `{ sender, receiver, text, time }` -/
  | receiveMessage (sender receiver text : String) (time : Instant)
  /-- `"error-message"`, `{ text }` -/
  | errorMessage (text : String)
  deriving DecidableEq, Repr

/-- Events a client sends to the server, with their payloads. -/
inductive ClientEvent where
  | registerUser (username : String)
  | join (sender receiver : String)
  | leave (sender receiver : String)
  | sendMessage (sender receiver text : String)
  | disconnect
  deriving DecidableEq, Repr

/-- How the two awaited database calls of `send-message` settle. -/
inductive StoreOutcome where
  /-- `clientPromise` resolves and `insertOne` resolves -/
  | ok
  /-- `await clientPromise` rejects -/
  | clientFailed
  /-- `await messages.insertOne(...)` rejects -/
  | insertFailed
  deriving DecidableEq, Repr

/-- What the environment supplies while one event is handled. -/
structure Env where
  store : StoreOutcome
  /-- the `new Date()` of line 83 -/
  insertedAt : Instant
  /-- the `new Date().toISOString()` of lines 54 and 90 -/
  now : Instant
  deriving DecidableEq, Repr

/-- An observable action of a handler, in program order. -/
inductive Effect where
  /-- `messages.insertOne(doc)` completed -/
  | insertOne (doc : Message)
  /-- `socket.emit` / `io.to(room).emit` addressed to the room `room` -/
  | emit (room : Value) (event : ServerEvent)
  deriving DecidableEq, Repr

/-- Server state: the table `users`, the `username` property of every socket,
and the contents of the `messages` collection. -/
structure ServerState where
  users : Registry
  socketUsername : SocketId → Option String
  messages : List Message

/-- State right after `app.prepare()`: empty table, no socket has a username. -/
def ServerState.init : ServerState :=
  { users := [], socketUsername := fun _ => none, messages := [] }

/-- Lines 46-50. -/
def onRegisterUser (st : ServerState) (socket : SocketId) (username : String) :
    ServerState × List Effect :=
  ({ st with
      users := st.users.set username socket
      socketUsername := Function.update st.socketUsername socket (some username) },
   [])

/-- Lines 52-60. -/
def onJoin (st : ServerState) (socket : SocketId) (env : Env) (sender receiver : String) :
    ServerState × List Effect :=
  (st,
   Effect.emit (.socketId socket) (.joined receiver env.now) ::
     (match st.users.get receiver with
      | some receiverSocketId => [Effect.emit receiverSocketId (.userJoined sender)]
      | none => []))

/-- Lines 64-70. -/
def onLeave (st : ServerState) (_socket : SocketId) (sender receiver : String) :
    ServerState × List Effect :=
  (st,
   match st.users.get receiver with
   | some receiverSocketId => [Effect.emit receiverSocketId (.userLeft sender)]
   | none => [])

/-- Lines 73-103. -/
def onSendMessage (st : ServerState) (socket : SocketId) (env : Env)
    (sender receiver text : String) : ServerState × List Effect :=
  match env.store with
  | .ok =>
    let doc : Message := ⟨sender, receiver, text, env.insertedAt⟩
    let msgPayload : ServerEvent := .receiveMessage sender receiver text env.now
    ({ st with messages := st.messages ++ [doc] },
     Effect.insertOne doc :: Effect.emit (.socketId socket) msgPayload ::
       (match st.users.get receiver with
        | some receiverSocketId => [Effect.emit receiverSocketId msgPayload]
        | none => []))
  | .clientFailed =>
    (st, [Effect.emit (.socketId socket) (.errorMessage "Server error while sending message")])
  | .insertFailed =>
    (st, [Effect.emit (.socketId socket) (.errorMessage "Server error while sending message")])

/-- Truthiness of `socket.username`: `undefined` and `""` are falsy. -/
def truthy : Option String → Bool
  | none => false
  | some s => decide (s ≠ "")

/-- Lines 106-111. -/
def onDisconnect (st : ServerState) (socket : SocketId) : ServerState × List Effect :=
  match st.socketUsername socket with
  | some username =>
    if truthy (some username) then
      ({ st with users := st.users.delete username }, [])
    else (st, [])
  | none => (st, [])

/-- Dispatch of one client event received on connection `socket`. -/
def handle (st : ServerState) (socket : SocketId) (env : Env) :
    ClientEvent → ServerState × List Effect
  | .registerUser username => onRegisterUser st socket username
  | .join sender receiver => onJoin st socket env sender receiver
  | .leave sender receiver => onLeave st socket sender receiver
  | .sendMessage sender receiver text => onSendMessage st socket env sender receiver text
  | .disconnect => onDisconnect st socket

/-- One received event together with its connection and environment. -/
structure Input where
  socket : SocketId
  env : Env
  event : ClientEvent
  deriving DecidableEq, Repr

/-- State after handling a sequence of events one after the other. -/
def run (st : ServerState) : List Input → ServerState
  | [] => st
  | i :: rest => run (handle st i.socket i.env i.event).1 rest

/-- The events addressed to connection `c` among a list of effects. -/
def emittedTo (c : SocketId) : List Effect → List ServerEvent
  | [] => []
  | .insertOne _ :: rest => emittedTo c rest
  | .emit room ev :: rest =>
    if room = .socketId c then ev :: emittedTo c rest else emittedTo c rest

/-- An environment with a working store. -/
def Env.good (insertedAt now : Instant) : Env := ⟨.ok, insertedAt, now⟩

/-- Whether a client event is a `register-user`. -/
def ClientEvent.isRegisterUser : ClientEvent → Bool
  | .registerUser _ => true
  | _ => false

/-- Whether a client event is a `join`, `leave` or `send-message`. -/
def ClientEvent.isChat : ClientEvent → Bool
  | .join _ _ => true
  | .leave _ _ => true
  | .sendMessage _ _ _ => true
  | _ => false

/-- A stretch of events between two events of connection `h`.  On `h` itself only
`join`, `leave` and `send-message` are handled.  On other connections nothing
registers `u1` or `u2`, and no connection whose own `socket.username` is `u1`
disconnects.  The state is threaded through because `socket.username` of the other
connections changes along the way. -/
def undisturbed (h : SocketId) (u1 u2 : String) : ServerState → List Input → Bool
  | _, [] => true
  | st, i :: rest =>
    (if i.socket = h then i.event.isChat
     else
      decide (i.event ≠ .registerUser u1) &&
      decide (i.event ≠ .registerUser u2) &&
      !(decide (i.event = .disconnect) &&
        decide (st.socketUsername i.socket = some u1))) &&
    undisturbed h u1 u2 (handle st i.socket i.env i.event).1 rest

/-! ## The table `users` -/

namespace Registry

theorem getOwn_setOwn_self (users : Registry) (key : String) (id : SocketId) :
    (users.setOwn key id).getOwn key = some id := by
  induction users with
  | nil => simp [setOwn, getOwn]
  | cons p rest ih =>
    obtain ⟨k, v⟩ := p
    by_cases hk : k = key
    · simp [setOwn, getOwn, hk]
    · simp [setOwn, getOwn, hk, ih]

theorem getOwn_setOwn_of_ne (users : Registry) (key other : String) (id : SocketId)
    (hne : other ≠ key) : (users.setOwn key id).getOwn other = users.getOwn other := by
  induction users with
  | nil => simp [setOwn, getOwn, Ne.symm hne]
  | cons p rest ih =>
    obtain ⟨k, v⟩ := p
    by_cases hk : k = key
    · subst hk
      simp [setOwn, getOwn, Ne.symm hne]
    · by_cases ho : k = other
      · subst ho
        simp [setOwn, getOwn, hk]
      · simp [setOwn, getOwn, hk, ho, ih]

theorem getOwn_delete_self (users : Registry) (key : String) :
    (users.delete key).getOwn key = none := by
  induction users with
  | nil => simp [delete, getOwn]
  | cons p rest ih =>
    obtain ⟨k, v⟩ := p
    by_cases hk : k = key
    · simpa [delete, List.filter_cons, hk] using ih
    · simpa [delete, List.filter_cons, hk, getOwn] using ih

theorem getOwn_delete_of_ne (users : Registry) (key other : String) (hne : other ≠ key) :
    (users.delete key).getOwn other = users.getOwn other := by
  induction users with
  | nil => simp [delete, getOwn]
  | cons p rest ih =>
    obtain ⟨k, v⟩ := p
    by_cases hk : k = key
    · subst hk
      simpa [delete, List.filter_cons, getOwn, Ne.symm hne] using ih
    · by_cases ho : k = other
      · subst ho
        simp [delete, List.filter_cons, hk, getOwn]
      · simpa [delete, List.filter_cons, hk, getOwn, ho] using ih

/-- A write under any key but `"__proto__"` is read back as the written id. -/
theorem get_set_self (users : Registry) (key : String) (id : SocketId)
    (hkey : key ≠ "__proto__") : (users.set key id).get key = some (.socketId id) := by
  simp [set, get, hkey, getOwn_setOwn_self]

/-- A write leaves the read of every other key as it was. -/
theorem get_set_of_ne (users : Registry) (key other : String) (id : SocketId)
    (hne : other ≠ key) : (users.set key id).get other = users.get other := by
  unfold set
  split
  · rfl
  · simp [get, getOwn_setOwn_of_ne _ _ _ _ hne]

/-- After a removal the read of the key falls through to the prototype. -/
theorem get_delete_self (users : Registry) (key : String) :
    (users.delete key).get key = inheritedValue key := by
  simp [get, getOwn_delete_self]

/-- A removal leaves the read of every other key as it was. -/
theorem get_delete_of_ne (users : Registry) (key other : String) (hne : other ≠ key) :
    (users.delete key).get other = users.get other := by
  simp [get, getOwn_delete_of_ne _ _ _ hne]

/-- Nothing is inherited under a name that `Object.prototype` does not have. -/
theorem inheritedValue_of_not_mem (key : String) (hkey : key ∉ objectPrototypeNames) :
    inheritedValue key = none := by
  simp [inheritedValue, hkey]

end Registry

/-! ## Effect of `disconnect` on the table -/

theorem get_onDisconnect (st : ServerState) (socket : SocketId) (key : String) :
    (onDisconnect st socket).1.users.get key =
      if st.socketUsername socket = some key ∧ key ≠ ""
      then Registry.inheritedValue key else st.users.get key := by
  unfold onDisconnect
  cases hu : st.socketUsername socket with
  | none => simp
  | some username =>
    by_cases he : username = ""
    · subst he
      by_cases hk : key = ""
      · simp [truthy, hk]
      · have hk2 : ¬ ("" = key) := fun h => hk h.symm
        simp [truthy, hk2]
    · by_cases hk : username = key
      · subst hk
        simp [truthy, he, Registry.get_delete_self]
      · have hk2 : key ≠ username := fun h => hk h.symm
        simp [truthy, he, hk, Registry.get_delete_of_ne _ _ _ hk2]

/-- One event that is not a `register-user` of `h` itself leaves `socket.username`
of `h` as it is. -/
theorem socketUsername_handle (st : ServerState) (h socket : SocketId) (env : Env)
    (ev : ClientEvent) (hown : socket = h → ev.isRegisterUser = false) :
    (handle st socket env ev).1.socketUsername h = st.socketUsername h := by
  cases ev with
  | registerUser u =>
    have hne : socket ≠ h := fun hs => by
      have := hown hs
      simp [ClientEvent.isRegisterUser] at this
    simp [handle, onRegisterUser, Function.update_apply, Ne.symm hne]
  | join a b => simp [handle, onJoin]
  | leave a b => simp [handle, onLeave]
  | sendMessage a b t =>
    simp only [handle, onSendMessage]
    cases env.store <;> rfl
  | disconnect =>
    simp only [handle, onDisconnect]
    cases st.socketUsername socket with
    | none => rfl
    | some u => by_cases hu : truthy (some u) = true <;> simp [hu]

/-- A stretch of events in which `h` registers nothing leaves `socket.username` of
`h` as it is. -/
theorem socketUsername_run (h : SocketId) (inputs : List Input) :
    ∀ st : ServerState,
      (∀ i ∈ inputs, i.socket = h → i.event.isRegisterUser = false) →
      (run st inputs).socketUsername h = st.socketUsername h := by
  induction inputs with
  | nil => intro st _; rfl
  | cons i rest ih =>
    intro st hlast
    have hrest : ∀ j ∈ rest, j.socket = h → j.event.isRegisterUser = false :=
      fun j hj => hlast j (List.mem_cons_of_mem _ hj)
    rw [run, ih _ hrest]
    exact socketUsername_handle st h i.socket i.env i.event
      (hlast i (List.mem_cons_self _ _))

/-! ## Registration -/

/-- C6 at the failing input: on the fresh server, connection 1 handles
`register-user("__proto__")`.  No own property is stored, and the read of
`"__proto__"` is the inherited prototype object, not the id of connection 1. -/
theorem register_proto_stores_nothing :
    (handle ServerState.init 1 (Env.good 0 0) (.registerUser "__proto__")).1.users = [] ∧
    (handle ServerState.init 1 (Env.good 0 0) (.registerUser "__proto__")).1.users.get
      "__proto__" = some (.inherited "__proto__") ∧
    (handle ServerState.init 1 (Env.good 0 0) (.registerUser "__proto__")).1.users.get
      "__proto__" ≠ some (.socketId 1) := by
  decide

/-! ## Disconnect -/

/-- C1, as the code behaves, for a username `U` that is not the name of a member
of `Object.prototype`: when `X` registers `U`, then `Y` registers `U`, then `X`
disconnects, the lookup of `U` is absent for every non-empty `U` (and is still `Y`
only for the empty username).  In general a disconnect of `X` removes the entry of
such a username exactly when it is the non-empty value of `X`'s `socket.username`,
whatever handle that entry maps to, and leaves every other entry alone. -/
theorem disconnect_deletes_by_username (st : ServerState) (X Y : SocketId)
    (e1 e2 e3 : Env) (U : String) (hU : U ∉ objectPrototypeNames) :
    (run st [⟨X, e1, .registerUser U⟩, ⟨Y, e2, .registerUser U⟩,
        ⟨X, e3, .disconnect⟩]).users.get U
      = (if U = "" then some (.socketId Y) else none) ∧
    (∀ key : String, key ∉ objectPrototypeNames →
      (handle st X e3 .disconnect).1.users.get key =
        if st.socketUsername X = some key ∧ key ≠ "" then none else st.users.get key) := by
  have hproto : U ≠ "__proto__" := fun h => hU (by rw [h]; decide)
  constructor
  · simp only [run, handle]
    rw [get_onDisconnect, Registry.inheritedValue_of_not_mem U hU]
    by_cases hE : U = ""
    · simp [hE, onRegisterUser, Registry.get_set_self]
    · simp [hE, onRegisterUser, Function.update_apply]
  · intro key hkey
    have := get_onDisconnect st X key
    rw [Registry.inheritedValue_of_not_mem key hkey] at this
    exact this

/-- Witness for C1: connection 3 registers "bob", connection 4 registers "bob",
connection 3 disconnects. -/
theorem disconnect_deletes_by_username_witness :
    (run ServerState.init [⟨3, Env.good 0 0, .registerUser "bob"⟩,
        ⟨4, Env.good 0 1, .registerUser "bob"⟩,
        ⟨3, Env.good 0 2, .disconnect⟩]).users.get "bob" = none :=
  (disconnect_deletes_by_username ServerState.init 3 4 (Env.good 0 0) (Env.good 0 1)
    (Env.good 0 2) "bob" (by decide)).1.trans (by decide)

/-- C1 fails as stated: connection 1 registers "alice", connection 2 registers
"alice", connection 1 disconnects; the entry then mapped to 2, a handle other than
1, and the disconnect removed it.  With "toString" in place of "alice" the entry is
removed as well, and the lookup then yields the inherited member, not the handle
of connection 2. -/
theorem stale_disconnect_removes_newer_entry :
    ((run ServerState.init
        [⟨1, Env.good 0 0, .registerUser "alice"⟩,
         ⟨2, Env.good 0 0, .registerUser "alice"⟩]).users.get "alice"
      = some (.socketId 2) ∧
     (run ServerState.init
        [⟨1, Env.good 0 0, .registerUser "alice"⟩,
         ⟨2, Env.good 0 0, .registerUser "alice"⟩,
         ⟨1, Env.good 0 0, .disconnect⟩]).users.get "alice" = none) ∧
    (run ServerState.init
        [⟨1, Env.good 0 0, .registerUser "toString"⟩,
         ⟨2, Env.good 0 0, .registerUser "toString"⟩,
         ⟨1, Env.good 0 0, .disconnect⟩]).users.get "toString"
      = some (.inherited "toString") := by
  decide

/-- C7, as the code behaves: let `U` be a non-empty username that is not the name
of a member of `Object.prototype`, registered by `h`, after which `h` registered no
other username.  If the entry of `U` still maps to `h`, then after `h` handles
`disconnect` the lookup of `U` is absent and the entry of every other username is
unchanged. -/
theorem disconnect_releases_last_registration (st0 : ServerState) (h : SocketId)
    (env e : Env) (U : String) (between : List Input)
    (hU : U ≠ "") (hP : U ∉ objectPrototypeNames)
    (hlast : ∀ i ∈ between, i.socket = h → i.event.isRegisterUser = false)
    (_hstill : (run (handle st0 h env (.registerUser U)).1 between).users.get U
      = some (.socketId h)) :
    (handle (run (handle st0 h env (.registerUser U)).1 between) h e .disconnect).1.users.get U
      = none ∧
    (∀ U2 : String, U2 ≠ U →
      (handle (run (handle st0 h env (.registerUser U)).1 between) h e .disconnect).1.users.get U2
        = (run (handle st0 h env (.registerUser U)).1 between).users.get U2) := by
  have hname : (run (handle st0 h env (.registerUser U)).1 between).socketUsername h
      = some U := by
    rw [socketUsername_run h between _ hlast]
    simp [handle, onRegisterUser]
  constructor
  · show (onDisconnect _ h).1.users.get U = none
    rw [get_onDisconnect, hname, Registry.inheritedValue_of_not_mem U hP]
    simp [hU]
  · intro U2 hne
    show (onDisconnect _ h).1.users.get U2 = _
    rw [get_onDisconnect, hname]
    have : ¬ (U = U2) := fun h => hne h.symm
    simp [this]

/-- Witness for C7: connection 1 registers "alice", connection 2 joins and
registers "bob", then connection 1 disconnects. -/
theorem disconnect_releases_last_registration_witness :
    (handle (run (handle ServerState.init 1 (Env.good 0 0) (.registerUser "alice")).1
        [⟨2, Env.good 0 1, .join "bob" "alice"⟩, ⟨2, Env.good 0 2, .registerUser "bob"⟩])
      1 (Env.good 0 3) .disconnect).1.users.get "alice" = none ∧
    (∀ U2 : String, U2 ≠ "alice" →
      (handle (run (handle ServerState.init 1 (Env.good 0 0) (.registerUser "alice")).1
          [⟨2, Env.good 0 1, .join "bob" "alice"⟩, ⟨2, Env.good 0 2, .registerUser "bob"⟩])
        1 (Env.good 0 3) .disconnect).1.users.get U2
      = (run (handle ServerState.init 1 (Env.good 0 0) (.registerUser "alice")).1
          [⟨2, Env.good 0 1, .join "bob" "alice"⟩,
           ⟨2, Env.good 0 2, .registerUser "bob"⟩]).users.get U2) :=
  disconnect_releases_last_registration ServerState.init 1 (Env.good 0 0) (Env.good 0 3)
    "alice" [⟨2, Env.good 0 1, .join "bob" "alice"⟩, ⟨2, Env.good 0 2, .registerUser "bob"⟩]
    (by decide) (by decide) (by decide) (by decide)

/-- C7 fails as stated, three times.  Connection 1 registers the empty username
and disconnects: the entry of the empty username is still there.  Connection 1
registers "alice", then "bob", and disconnects: the entry of "alice" mapped to 1
before the disconnect and still does after it.  Connection 1 registers "toString"
and disconnects: the entry mapped to 1 before, and afterwards the lookup is the
inherited member rather than absent. -/
theorem disconnect_keeps_empty_and_renamed_entries :
    ((run ServerState.init [⟨1, Env.good 0 0, .registerUser ""⟩]).users.get ""
        = some (.socketId 1) ∧
     (run ServerState.init
        [⟨1, Env.good 0 0, .registerUser ""⟩,
         ⟨1, Env.good 0 0, .disconnect⟩]).users.get "" = some (.socketId 1)) ∧
    ((run ServerState.init
        [⟨1, Env.good 0 0, .registerUser "alice"⟩,
         ⟨1, Env.good 0 0, .registerUser "bob"⟩]).users.get "alice" = some (.socketId 1) ∧
     (run ServerState.init
        [⟨1, Env.good 0 0, .registerUser "alice"⟩,
         ⟨1, Env.good 0 0, .registerUser "bob"⟩,
         ⟨1, Env.good 0 0, .disconnect⟩]).users.get "alice" = some (.socketId 1)) ∧
    ((run ServerState.init [⟨1, Env.good 0 0, .registerUser "toString"⟩]).users.get
        "toString" = some (.socketId 1) ∧
     (run ServerState.init
        [⟨1, Env.good 0 0, .registerUser "toString"⟩,
         ⟨1, Env.good 0 0, .disconnect⟩]).users.get "toString"
        = some (.inherited "toString")) := by
  decide

/-! ## Rename followed by disconnect -/

theorem run_append (st : ServerState) (xs ys : List Input) :
    run st (xs ++ ys) = run (run st xs) ys := by
  induction xs generalizing st with
  | nil => rfl
  | cons i rest ih => simp [run, ih]

/-- One event that neither registers `key` nor is a disconnect of a connection
whose `socket.username` is `key` leaves the read of `key` alone. -/
theorem get_handle_of_quiet (st : ServerState) (socket : SocketId) (env : Env)
    (ev : ClientEvent) (key : String)
    (hreg : ev ≠ .registerUser key)
    (hdisc : ev = .disconnect → st.socketUsername socket ≠ some key) :
    (handle st socket env ev).1.users.get key = st.users.get key := by
  cases ev with
  | registerUser u =>
    have hne : key ≠ u := fun hk => hreg (by rw [hk])
    simp [handle, onRegisterUser, Registry.get_set_of_ne _ _ _ _ hne]
  | join a b => simp [handle, onJoin]
  | leave a b => simp [handle, onLeave]
  | sendMessage a b t =>
    simp only [handle, onSendMessage]
    cases env.store <;> rfl
  | disconnect =>
    simp only [handle]
    rw [get_onDisconnect]
    simp [hdisc rfl]

/-- An undisturbed stretch of events keeps both the read of `u1` and
`socket.username` of `h`. -/
theorem undisturbed_run (h : SocketId) (u1 u2 : String) (inputs : List Input) :
    ∀ st : ServerState, undisturbed h u1 u2 st inputs = true →
      (run st inputs).users.get u1 = st.users.get u1 ∧
      (run st inputs).socketUsername h = st.socketUsername h := by
  induction inputs with
  | nil => intro st _; exact ⟨rfl, rfl⟩
  | cons i rest ih =>
    intro st hq
    rw [undisturbed, Bool.and_eq_true] at hq
    obtain ⟨hstep, hrest⟩ := hq
    obtain ⟨ih1, ih2⟩ := ih _ hrest
    rw [run, ih1, ih2]
    by_cases hs : i.socket = h
    · rw [if_pos hs] at hstep
      have hreg : i.event ≠ .registerUser u1 := by
        intro he
        rw [he] at hstep
        simp [ClientEvent.isChat] at hstep
      have hdisc : i.event = .disconnect → st.socketUsername i.socket ≠ some u1 := by
        intro he
        rw [he] at hstep
        simp [ClientEvent.isChat] at hstep
      have hown : i.socket = h → i.event.isRegisterUser = false := by
        intro _
        cases hev : i.event <;> rw [hev] at hstep <;>
          simp [ClientEvent.isChat, ClientEvent.isRegisterUser] at hstep ⊢
      exact ⟨get_handle_of_quiet st i.socket i.env i.event u1 hreg hdisc,
        socketUsername_handle st h i.socket i.env i.event hown⟩
    · rw [if_neg hs] at hstep
      simp only [Bool.and_eq_true, decide_eq_true_eq, Bool.not_eq_true,
        Bool.and_eq_false_imp, decide_eq_false_iff_not, Bool.not_eq_eq_eq_not,
        Bool.not_true] at hstep
      obtain ⟨⟨hreg1, _⟩, hdisc⟩ := hstep
      exact ⟨get_handle_of_quiet st i.socket i.env i.event u1 hreg1 hdisc,
        socketUsername_handle st h i.socket i.env i.event (fun he => absurd he hs)⟩

/-- C10, as the code behaves: `h` registers `U1`, later registers `U2`, later
disconnects, with `U1` and `U2` distinct and non-empty, `U1` other than
`"__proto__"` and `U2` not the name of a member of `Object.prototype`.  In between,
`h` itself handles only `join`, `leave` and `send-message`, no other connection
registers `U1` or `U2`, and no other connection whose own last registration was
`U1` disconnects.  Then afterwards the lookup of `U2` is absent and the lookup of
`U1` is still the handle of the closed connection `h`. -/
theorem rename_then_disconnect_leaves_stale_entry (st0 : ServerState) (h : SocketId)
    (e1 e2 e3 : Env) (U1 U2 : String) (es1 es2 : List Input)
    (hne : U1 ≠ U2) (_h1 : U1 ≠ "") (h2 : U2 ≠ "")
    (hp1 : U1 ≠ "__proto__") (hp2 : U2 ∉ objectPrototypeNames)
    (hq1 : undisturbed h U1 U2 (run st0 [⟨h, e1, .registerUser U1⟩]) es1 = true)
    (hq2 : undisturbed h U1 U2
      (run st0 ([⟨h, e1, .registerUser U1⟩] ++ es1 ++ [⟨h, e2, .registerUser U2⟩])) es2
        = true) :
    (run st0 ([⟨h, e1, .registerUser U1⟩] ++ es1 ++ [⟨h, e2, .registerUser U2⟩] ++ es2
        ++ [⟨h, e3, .disconnect⟩])).users.get U2 = none ∧
    (run st0 ([⟨h, e1, .registerUser U1⟩] ++ es1 ++ [⟨h, e2, .registerUser U2⟩] ++ es2
        ++ [⟨h, e3, .disconnect⟩])).users.get U1 = some (.socketId h) := by
  have hmid : run st0 ([⟨h, e1, .registerUser U1⟩] ++ es1 ++ [⟨h, e2, .registerUser U2⟩])
      = (handle (run (run st0 [⟨h, e1, .registerUser U1⟩]) es1) h e2
          (.registerUser U2)).1 := by
    rw [run_append, run_append]
    rfl
  have hend : run st0 ([⟨h, e1, .registerUser U1⟩] ++ es1 ++ [⟨h, e2, .registerUser U2⟩]
      ++ es2 ++ [⟨h, e3, .disconnect⟩])
      = (onDisconnect (run (run st0 ([⟨h, e1, .registerUser U1⟩] ++ es1
          ++ [⟨h, e2, .registerUser U2⟩])) es2) h).1 := by
    rw [run_append, run_append _ _ es2]
    rfl
  obtain ⟨a1, _⟩ := undisturbed_run h U1 U2 es1 _ hq1
  obtain ⟨b1, b2⟩ := undisturbed_run h U1 U2 es2 _ hq2
  have hs1 : (run st0 [⟨h, e1, .registerUser U1⟩]).users.get U1 = some (.socketId h) :=
    Registry.get_set_self _ _ _ hp1
  have hs2 : (run st0 ([⟨h, e1, .registerUser U1⟩] ++ es1
      ++ [⟨h, e2, .registerUser U2⟩])).users.get U1 = some (.socketId h) := by
    rw [hmid]
    show Registry.get (Registry.set _ U2 h) U1 = some (.socketId h)
    rw [Registry.get_set_of_ne _ _ _ _ hne, a1, hs1]
  have hn2 : (run st0 ([⟨h, e1, .registerUser U1⟩] ++ es1
      ++ [⟨h, e2, .registerUser U2⟩])).socketUsername h = some U2 := by
    rw [hmid]
    simp [handle, onRegisterUser]
  rw [hend, get_onDisconnect, get_onDisconnect, b2, hn2, b1, hs2,
    Registry.inheritedValue_of_not_mem U2 hp2]
  have : ¬ (U2 = U1) := fun h => hne h.symm
  simp [h2, this]

/-- Witness for C10: connection 1 registers "alice" and joins "dave", connection 2
registers "carol", connection 1 registers "bob" and sends a message, connection 2
disconnects, connection 1 disconnects. -/
theorem rename_then_disconnect_leaves_stale_entry_witness :
    (run ServerState.init ([⟨1, Env.good 0 0, .registerUser "alice"⟩]
        ++ [⟨1, Env.good 0 1, .join "alice" "dave"⟩,
            ⟨2, Env.good 0 1, .registerUser "carol"⟩]
        ++ [⟨1, Env.good 0 2, .registerUser "bob"⟩]
        ++ [⟨1, Env.good 3 3, .sendMessage "bob" "carol" "hi"⟩,
            ⟨2, Env.good 0 3, .disconnect⟩]
        ++ [⟨1, Env.good 0 4, .disconnect⟩])).users.get "bob" = none ∧
    (run ServerState.init ([⟨1, Env.good 0 0, .registerUser "alice"⟩]
        ++ [⟨1, Env.good 0 1, .join "alice" "dave"⟩,
            ⟨2, Env.good 0 1, .registerUser "carol"⟩]
        ++ [⟨1, Env.good 0 2, .registerUser "bob"⟩]
        ++ [⟨1, Env.good 3 3, .sendMessage "bob" "carol" "hi"⟩,
            ⟨2, Env.good 0 3, .disconnect⟩]
        ++ [⟨1, Env.good 0 4, .disconnect⟩])).users.get "alice" = some (.socketId 1) :=
  rename_then_disconnect_leaves_stale_entry ServerState.init 1 (Env.good 0 0) (Env.good 0 2)
    (Env.good 0 4) "alice" "bob"
    [⟨1, Env.good 0 1, .join "alice" "dave"⟩, ⟨2, Env.good 0 1, .registerUser "carol"⟩]
    [⟨1, Env.good 3 3, .sendMessage "bob" "carol" "hi"⟩, ⟨2, Env.good 0 3, .disconnect⟩]
    (by decide) (by decide) (by decide) (by decide) (by decide) (by decide) (by decide)

/-- C10 fails as stated, three times.  Connection 2 registered "alice" earlier; then
connection 1 registers "alice", registers "bob" and disconnects, and the only event
in between is the disconnect of connection 2, which registers nothing: the lookup
of "bob" is absent, but so is the lookup of "alice".  Connection 1 registers
"__proto__", registers "bob" and disconnects: the lookup of "__proto__" is the
inherited object, not the handle of connection 1.  Connection 1 registers "alice",
registers "toString" and disconnects: the lookup of "toString" is the inherited
member rather than absent. -/
theorem stale_entry_removed_by_earlier_owner :
    ((run ServerState.init
        [⟨2, Env.good 0 0, .registerUser "alice"⟩,
         ⟨1, Env.good 0 1, .registerUser "alice"⟩,
         ⟨1, Env.good 0 2, .registerUser "bob"⟩,
         ⟨2, Env.good 0 3, .disconnect⟩,
         ⟨1, Env.good 0 4, .disconnect⟩]).users.get "bob" = none ∧
     (run ServerState.init
        [⟨2, Env.good 0 0, .registerUser "alice"⟩,
         ⟨1, Env.good 0 1, .registerUser "alice"⟩,
         ⟨1, Env.good 0 2, .registerUser "bob"⟩,
         ⟨2, Env.good 0 3, .disconnect⟩,
         ⟨1, Env.good 0 4, .disconnect⟩]).users.get "alice" = none) ∧
    (run ServerState.init
        [⟨1, Env.good 0 1, .registerUser "__proto__"⟩,
         ⟨1, Env.good 0 2, .registerUser "bob"⟩,
         ⟨1, Env.good 0 4, .disconnect⟩]).users.get "__proto__"
      = some (.inherited "__proto__") ∧
    (run ServerState.init
        [⟨1, Env.good 0 1, .registerUser "alice"⟩,
         ⟨1, Env.good 0 2, .registerUser "toString"⟩,
         ⟨1, Env.good 0 4, .disconnect⟩]).users.get "toString"
      = some (.inherited "toString") := by
  decide

/-! ## Join and leave -/

/-- C4 at the failing input: on the fresh server, where nobody is registered,
connection 1 handles `join{sender: "alice", receiver: "constructor"}`.  The read of
`users["constructor"]` is the inherited member, so besides the `joined`
acknowledgment a `user-joined` is emitted, to a room that is no connection. -/
theorem join_inherited_name_emits_user_joined :
    ServerState.init.users.getOwn "constructor" = none ∧
    (handle ServerState.init 1 (Env.good 0 7) (.join "alice" "constructor")).2
      = [Effect.emit (.socketId 1) (.joined "constructor" 7),
         Effect.emit (.inherited "constructor") (.userJoined "alice")] := by
  decide

/-- C5 at the failing input: on the fresh server, where nobody is registered,
connection 1 handles `leave{sender: "alice", receiver: "toString"}`.  The read of
`users["toString"]` is the inherited member, so a `user-left` is emitted, to a room
that is no connection. -/
theorem leave_inherited_name_emits_user_left :
    ServerState.init.users.getOwn "toString" = none ∧
    (handle ServerState.init 1 (Env.good 0 7) (.leave "alice" "toString")).2
      = [Effect.emit (.inherited "toString") (.userLeft "alice")] := by
  decide

/-! ## Sending a message -/

/-- C2 at the failing input: on the fresh server, where nobody is registered,
connection 1 handles `send-message{sender: "alice", receiver: "toString", text:
"hi"}` and the insert succeeds.  After the insert and the echo a third effect
follows: the payload is emitted once more, to a room that is no connection. -/
theorem send_to_inherited_name_emits_extra :
    ServerState.init.users.getOwn "toString" = none ∧
    (handle ServerState.init 1 (Env.good 5 7) (.sendMessage "alice" "toString" "hi")).2
      = [Effect.insertOne ⟨"alice", "toString", "hi", 5⟩,
         Effect.emit (.socketId 1) (.receiveMessage "alice" "toString" "hi" 7),
         Effect.emit (.inherited "toString") (.receiveMessage "alice" "toString" "hi" 7)] := by
  decide

/-- C3: when obtaining the database client or the insert fails, the whole state
(table, socket usernames and stored messages) is unchanged, the only effect is one
`error-message` to the issuing connection `h`, and no `receive-message` is emitted
to any room. -/
theorem send_message_storage_failure (st : ServerState) (h : SocketId) (env : Env)
    (sender receiver text : String) (hfail : env.store ≠ .ok) :
    (handle st h env (.sendMessage sender receiver text)).1 = st ∧
    (handle st h env (.sendMessage sender receiver text)).2
      = [Effect.emit (.socketId h) (.errorMessage "Server error while sending message")] ∧
    (∀ c s r t n, Effect.emit c (.receiveMessage s r t n)
      ∉ (handle st h env (.sendMessage sender receiver text)).2) := by
  cases hs : env.store with
  | ok => exact absurd hs hfail
  | clientFailed => simp [handle, onSendMessage, hs]
  | insertFailed => simp [handle, onSendMessage, hs]

/-- Witness for C3: the insert fails while "alice" sends "hi" to the registered
"bob". -/
theorem send_message_storage_failure_witness :
    (handle (run ServerState.init [⟨2, Env.good 0 0, .registerUser "bob"⟩]) 1
        ⟨.insertFailed, 5, 7⟩ (.sendMessage "alice" "bob" "hi")).2
      = [Effect.emit (.socketId 1) (.errorMessage "Server error while sending message")] :=
  (send_message_storage_failure
    (run ServerState.init [⟨2, Env.good 0 0, .registerUser "bob"⟩]) 1
    ⟨.insertFailed, 5, 7⟩ "alice" "bob" "hi" (by decide)).2.1

/-- C8, as the code behaves: after a successful `send-message` handled on `h`, the
number of times the payload is emitted to a connection `c` is one if `c` is `h`,
plus one if the entry of `receiver` maps to `c`.  So every connection other than
`h` gets it at most once, and `h` gets it once, or twice when the entry of
`receiver` maps to `h` itself. -/
theorem receive_message_delivery_count (st : ServerState) (h c : SocketId) (env : Env)
    (sender receiver text : String) (hok : env.store = .ok) :
    (emittedTo c (handle st h env (.sendMessage sender receiver text)).2).count
        (.receiveMessage sender receiver text env.now)
      = (if h = c then 1 else 0)
        + (if st.users.get receiver = some (.socketId c) then 1 else 0) := by
  cases hr : st.users.get receiver with
  | none =>
    by_cases hc : h = c <;> simp [handle, onSendMessage, hok, hr, emittedTo, hc]
  | some v =>
    cases v with
    | socketId rid =>
      by_cases hc : h = c <;> by_cases hrc : rid = c <;>
        simp [handle, onSendMessage, hok, hr, emittedTo, hc, hrc]
    | inherited name =>
      by_cases hc : h = c <;> simp [handle, onSendMessage, hok, hr, emittedTo, hc]

/-- Witness for C8: "bob" is on connection 2 and connection 1 sends to "bob";
connection 2 gets the payload once. -/
theorem receive_message_delivery_count_witness :
    (emittedTo 2 (handle (run ServerState.init [⟨2, Env.good 0 0, .registerUser "bob"⟩]) 1
        (Env.good 5 7) (.sendMessage "alice" "bob" "hi")).2).count
        (.receiveMessage "alice" "bob" "hi" 7) = 1 :=
  (receive_message_delivery_count
    (run ServerState.init [⟨2, Env.good 0 0, .registerUser "bob"⟩]) 1 2
    (Env.good 5 7) "alice" "bob" "hi" rfl).trans (by decide)

/-- C8 fails as stated: "alice" is registered on connection 1 and sends a message
to "alice" from connection 1; connection 1 is sent the same payload twice. -/
theorem self_send_delivers_twice :
    (emittedTo 1 (handle (run ServerState.init [⟨1, Env.good 0 0, .registerUser "alice"⟩]) 1
        (Env.good 5 7) (.sendMessage "alice" "alice" "hi")).2).count
        (.receiveMessage "alice" "alice" "hi" 7) = 2 := by
  decide

/-! ## Events that do not touch the table -/

/-- C9: `join`, `leave` and `send-message`, whatever the outcome of the store,
leave the table `users` and every `socket.username` exactly as they were. -/
theorem registry_frame (st : ServerState) (h : SocketId) (env : Env)
    (sender receiver text : String) :
    ((handle st h env (.join sender receiver)).1.users = st.users ∧
      (handle st h env (.join sender receiver)).1.socketUsername = st.socketUsername) ∧
    ((handle st h env (.leave sender receiver)).1.users = st.users ∧
      (handle st h env (.leave sender receiver)).1.socketUsername = st.socketUsername) ∧
    ((handle st h env (.sendMessage sender receiver text)).1.users = st.users ∧
      (handle st h env (.sendMessage sender receiver text)).1.socketUsername
        = st.socketUsername) := by
  refine ⟨⟨rfl, rfl⟩, ⟨rfl, rfl⟩, ?_⟩
  simp only [handle, onSendMessage]
  cases env.store <;> exact ⟨rfl, rfl⟩

end ChatServer
